import Mathlib

/-!
Shallow embedding of `src/main.py`: a Python exception model, the
`log_to_file` decorator, the `Calculator` and `DataProcessor` classes and
the `RetryDecorator` class, together with theorems settling the spec's
claims about them.
-/

/-- A Python exception, reduced to its class name and its message
(`str(e)` in the source returns the message). -/
structure PyErr where
  ty : String
  msg : String
deriving DecidableEq, Repr

/-- Models Python's `str(e)` on an exception. -/
def PyErr.str (e : PyErr) : String := e.msg

/-! ### RetryDecorator (src/main.py lines 124-142)

```python
class RetryDecorator:
    def __init__(self, retries: int = MAX_RETRIES):
        self.retries = retries

    def __call__(self, func):
        @functools.wraps(func)
        def wrapper(*args, **kwargs):
            attempts = 0
            while attempts < self.retries:
                try:
                    return func(*args, **kwargs)
                except Exception as e:
                    attempts += 1
                    if attempts == self.retries:
                        raise e
                    print(f"Retry ...")
        return wrapper
```

The wrapped function is modelled as `func : ℕ → Except PyErr α`, giving
the outcome of its i-th invocation (0-indexed); the console `print` of the
retry notice is an output side effect with no bearing on control flow and
is not modelled.  A Python function that falls off the end returns `None`,
hence the result type `Except PyErr (Option α)`: `.ok (some v)` is a
returned value, `.ok none` is the implicit `None` when the `while` loop is
never entered, `.error e` is a raised exception.  The returned `ℕ` counts
the invocations of `func`. -/

/-- `self.retries` may be any Python int, including zero or negative:
`__init__` stores it without validation. -/
structure RetryDecorator where
  retries : ℤ
deriving DecidableEq, Repr

/-- `RetryDecorator.__init__`: stores `retries` unchecked; it cannot raise. -/
def RetryDecorator.init (retries : ℤ) : Except PyErr RetryDecorator :=
  Except.ok ⟨retries⟩

/-- The `while attempts < self.retries` loop of the wrapper, entered with
the current value of `attempts`.  Returns the number of invocations of
`func` performed from this point on, paired with the wrapper's outcome. -/
def retryLoop (retries : ℤ) (func : ℕ → Except PyErr α) (attempts : ℕ) :
    ℕ × Except PyErr (Option α) :=
  if h : (attempts : ℤ) < retries then
    match func attempts with
    | Except.ok v => (1, Except.ok (some v))
    | Except.error e =>
      if ((attempts + 1 : ℕ) : ℤ) = retries then
        (1, Except.error e)
      else
        let rest := retryLoop retries func (attempts + 1)
        (rest.1 + 1, rest.2)
  else (0, Except.ok none)
termination_by (retries - (attempts : ℤ)).toNat
decreasing_by omega

/-- `RetryDecorator.__call__`'s wrapper: run the loop with `attempts = 0`. -/
def RetryDecorator.call (d : RetryDecorator) (func : ℕ → Except PyErr α) :
    ℕ × Except PyErr (Option α) :=
  retryLoop d.retries func 0

/-! ### log_to_file (src/main.py lines 13-27)

```python
def log_to_file(func):
    @functools.wraps(func)
    def wrapper(*args, **kwargs):
        result = None
        try:
            result = func(*args, **kwargs)
            with open(LOG_FILE_PATH, 'a') as log_file:
                log_file.write(f"{datetime.now()} - {func.__name__} - SUCCESS - ... Result: {result}\n")
        except Exception as e:
            with open(LOG_FILE_PATH, 'a') as log_file:
                log_file.write(f"{datetime.now()} - {func.__name__} - FAILURE - ... Error: {str(e)}\n")
            raise
        return result
    return wrapper
```

The log file is an append-only sink of records; a record keeps the
structured content of the written line (function name, SUCCESS with the
result or FAILURE with `str(e)`); the timestamp and the argument reprs are
opaque text with no bearing on the claims and are not modelled.  The
operation's single execution is its outcome `op : Except PyErr α`.  The
sink is a function from the current log and the record to either the new
log or an I/O error (`open`/`write` raising); the wrapper returns the
trace of its events (invocation of `func`, append attempts), the final
log, and its outcome.

Control flow of the source: the `except` clause also catches an exception
raised by the SUCCESS write itself, in which case a FAILURE line is
attempted and the sink's exception is re-raised (or, if the FAILURE write
also raises, that exception propagates). -/

/-- Outcome field of a log record. -/
inductive RecOutcome (α : Type) where
  | success (result : α)
  | failure (err : String)
deriving DecidableEq, Repr

/-- The structured content of one line written to `application.log`. -/
structure Record (α : Type) where
  name : String
  outcome : RecOutcome α
deriving DecidableEq, Repr

/-- Events of one wrapper invocation, in order. -/
inductive Event (α : Type) where
  | invoke
  | appendAttempt (r : Record α)
deriving DecidableEq, Repr

/-- A log sink: appending may fail with an I/O error. -/
def Sink (α : Type) : Type :=
  List (Record α) → Record α → Except PyErr (List (Record α))

/-- A sink whose appends always succeed (the normal, working log file). -/
def okSink {α : Type} : Sink α := fun log r => Except.ok (log ++ [r])

/-- The wrapper produced by `log_to_file`, evaluated on the outcome of the
wrapped call.  Returns (event trace, final log, wrapper outcome). -/
def log_to_file (name : String) (op : Except PyErr α) (sink : Sink α)
    (log : List (Record α)) :
    List (Event α) × List (Record α) × Except PyErr α :=
  match op with
  | Except.ok v =>
    let r : Record α := ⟨name, RecOutcome.success v⟩
    match sink log r with
    | Except.ok log' =>
      ([Event.invoke, Event.appendAttempt r], log', Except.ok v)
    | Except.error se =>
      let r2 : Record α := ⟨name, RecOutcome.failure se.str⟩
      match sink log r2 with
      | Except.ok log2 =>
        ([Event.invoke, Event.appendAttempt r, Event.appendAttempt r2],
          log2, Except.error se)
      | Except.error se2 =>
        ([Event.invoke, Event.appendAttempt r, Event.appendAttempt r2],
          log, Except.error se2)
  | Except.error e =>
    let r : Record α := ⟨name, RecOutcome.failure e.str⟩
    match sink log r with
    | Except.ok log' =>
      ([Event.invoke, Event.appendAttempt r], log', Except.error e)
    | Except.error se =>
      ([Event.invoke, Event.appendAttempt r], log, Except.error se)

/-! ### Calculator (src/main.py lines 29-66)

Python floats are modelled as rationals: the claims concern control flow
and which arithmetic operation is applied, not IEEE rounding.  Each method
returns its outcome paired with the post-state, so that a raise that
happens before any assignment to `self.value` leaves the state visibly
unchanged. -/

/-- `Calculator`: holds `self.value`. -/
structure Calculator where
  value : ℚ
deriving DecidableEq, Repr

/-- `Calculator.add`: `self.value += num; return self.value`. -/
def Calculator.add (c : Calculator) (num : ℚ) : ℚ × Calculator :=
  (c.value + num, ⟨c.value + num⟩)

/-- `Calculator.subtract`: `self.value -= num; return self.value`. -/
def Calculator.subtract (c : Calculator) (num : ℚ) : ℚ × Calculator :=
  (c.value - num, ⟨c.value - num⟩)

/-- `Calculator.multiply`: `self.value *= num; return self.value`. -/
def Calculator.multiply (c : Calculator) (num : ℚ) : ℚ × Calculator :=
  (c.value * num, ⟨c.value * num⟩)

/-- `Calculator.divide`:
```python
if num == 0:
    raise ValueError("Cannot divide by zero.")
self.value /= num
return self.value
```
The raise precedes the assignment, so the state is returned unchanged in
that branch. -/
def Calculator.divide (c : Calculator) (num : ℚ) :
    Except PyErr ℚ × Calculator :=
  if num = 0 then
    (Except.error ⟨"ValueError", "Cannot divide by zero."⟩, c)
  else
    (Except.ok (c.value / num), ⟨c.value / num⟩)

/-! ### DataProcessor (src/main.py lines 68-102)

`List[int]` is `List ℤ`; Python's `%` on ints is `Int.emod` (both give a
result with the divisor's sign).  `sorted` is modelled by
`List.insertionSort (· ≤ ·)` (a stable ascending sort returning a new
list).  `math.sqrt` is an external float primitive, taken as an
uninterpreted parameter `sqrt : ℚ → ℚ`; the claims do not depend on its
values.  `compute_statistics` on empty data raises `ZeroDivisionError` at
`sum(self.data) / len(self.data)` before the median or standard deviation
is computed; for nonempty data every index taken in `_compute_median` is
in range, so total `getD` indexing coincides with Python's. -/

/-- `DataProcessor`: holds `self.data`. -/
structure DataProcessor where
  data : List ℤ
deriving DecidableEq, Repr

/-- `DataProcessor.filter_out_odd_numbers`:
`return [num for num in self.data if num % 2 == 0]` — a fresh list; no
assignment to `self.data`, so the state is returned unchanged. -/
def DataProcessor.filter_out_odd_numbers (p : DataProcessor) :
    List ℤ × DataProcessor :=
  (p.data.filter (fun num => num % 2 == 0), p)

/-- `DataProcessor.sort_data`: `return sorted(self.data)` — `sorted`
builds a new list and does not mutate its argument. -/
def DataProcessor.sort_data (p : DataProcessor) : List ℤ × DataProcessor :=
  (p.data.insertionSort (· ≤ ·), p)

/-- `DataProcessor._compute_median` (called only with nonempty `data`):
```python
sorted_data = sorted(data); n = len(sorted_data); mid = n // 2
if n % 2 == 0: return (sorted_data[mid - 1] + sorted_data[mid]) / 2
else: return sorted_data[mid]
``` -/
def compute_median (data : List ℤ) : ℚ :=
  let sorted_data := data.insertionSort (· ≤ ·)
  let n := sorted_data.length
  let mid := n / 2
  if n % 2 = 0 then
    ((sorted_data.getD (mid - 1) 0 : ℚ) + (sorted_data.getD mid 0 : ℚ)) / 2
  else
    (sorted_data.getD mid 0 : ℚ)

/-- `DataProcessor._compute_standard_deviation`:
`variance = sum((x - mean) ** 2 for x in data) / len(data)` then
`return math.sqrt(variance)`, with `math.sqrt` the parameter `sqrt`. -/
def compute_standard_deviation (sqrt : ℚ → ℚ) (data : List ℤ) (mean : ℚ) : ℚ :=
  let variance := (data.map (fun x => ((x : ℚ) - mean) ^ 2)).sum / data.length
  sqrt variance

/-- Result dict of `compute_statistics`. -/
structure Stats where
  mean : ℚ
  median : ℚ
  std_dev : ℚ
deriving DecidableEq, Repr

/-- `DataProcessor.compute_statistics`:
```python
mean = sum(self.data) / len(self.data)
median = self._compute_median(self.data)
std_dev = self._compute_standard_deviation(self.data, mean)
return {"mean": mean, "median": median, "std_dev": std_dev}
```
On empty data the first line raises `ZeroDivisionError`; no method here
assigns to `self.data`, so the state is returned unchanged. -/
def DataProcessor.compute_statistics (sqrt : ℚ → ℚ) (p : DataProcessor) :
    Except PyErr Stats × DataProcessor :=
  if p.data.length = 0 then
    (Except.error ⟨"ZeroDivisionError", "division by zero"⟩, p)
  else
    let mean := (p.data.sum : ℚ) / (p.data.length : ℚ)
    let median := compute_median p.data
    let std_dev := compute_standard_deviation sqrt p.data mean
    (Except.ok ⟨mean, median, std_dev⟩, p)

/-! ## Helper lemmas about the retry loop -/

/-- On a function that fails on every invocation, the loop entered with
`k = attempts + d` remaining room (`d ≥ 1`) performs `d` invocations and
raises the failure of invocation `k - 1`. -/
theorem retryLoop_allFail {α : Type} (es : ℕ → PyErr) :
    ∀ (d attempts k : ℕ), k = attempts + d → 1 ≤ d →
      retryLoop (k : ℤ) (fun i => (Except.error (es i) : Except PyErr α)) attempts
        = (d, Except.error (es (k - 1))) := by
  intro d
  induction d with
  | zero => intro attempts k _ h1; omega
  | succ n ih =>
    intro attempts k hk _
    rw [retryLoop]
    have hlt : (attempts : ℤ) < (k : ℤ) := by exact_mod_cast (by omega : attempts < k)
    rw [dif_pos hlt]
    by_cases hn : n = 0
    · subst hn
      have hEq : ((attempts + 1 : ℕ) : ℤ) = (k : ℤ) := by exact_mod_cast (by omega : attempts + 1 = k)
      simp only [hEq, if_pos rfl]
      have : k - 1 = attempts := by omega
      simp [this]
    · have hNe : ¬ (((attempts + 1 : ℕ) : ℤ) = (k : ℤ)) := by
        intro hc
        have : attempts + 1 = k := by exact_mod_cast hc
        omega
      simp only [if_neg hNe]
      have hrec := ih (attempts + 1) k (by omega) (by omega)
      simp only [hrec]

/-- On a function that fails on invocations `attempts..s-1` and succeeds
on invocation `s` (with `s = attempts + d < k`), the loop entered at
`attempts` performs `d + 1` invocations and returns invocation `s`'s
value. -/
theorem retryLoop_succeedsAt {α : Type} (func : ℕ → Except PyErr α) (v : α) :
    ∀ (d attempts s k : ℕ), s = attempts + d → s < k →
      (∀ i, attempts ≤ i → i < s → ∃ e, func i = Except.error e) →
      func s = Except.ok v →
      retryLoop (k : ℤ) func attempts = (d + 1, Except.ok (some v)) := by
  intro d
  induction d with
  | zero =>
    intro attempts s k hs hk _ hok
    have hsa : s = attempts := by omega
    subst hsa
    rw [retryLoop]
    have hlt : (s : ℤ) < (k : ℤ) := by exact_mod_cast hk
    rw [dif_pos hlt]
    simp [hok]
  | succ n ih =>
    intro attempts s k hs hk hfail hok
    obtain ⟨e, he⟩ := hfail attempts (le_refl _) (by omega)
    rw [retryLoop]
    have hlt : (attempts : ℤ) < (k : ℤ) := by exact_mod_cast (by omega : attempts < k)
    rw [dif_pos hlt]
    have hNe : ¬ (((attempts + 1 : ℕ) : ℤ) = (k : ℤ)) := by
      intro hc
      have : attempts + 1 = k := by exact_mod_cast hc
      omega
    have hrec := ih (attempts + 1) s k (by omega) hk
      (fun i h1 h2 => hfail i (by omega) h2) hok
    simp only [he, if_neg hNe, hrec]

/-- For any wrapped function, the loop entered with `d ≥ 1` remaining room
performs between 1 and `d` invocations and ends in a genuine terminal
outcome: a returned value or a raised exception, never the implicit
`None`. -/
theorem retryLoop_bounds {α : Type} (func : ℕ → Except PyErr α) :
    ∀ (d attempts k : ℕ), k = attempts + d → 1 ≤ d →
      1 ≤ (retryLoop (k : ℤ) func attempts).1 ∧
      (retryLoop (k : ℤ) func attempts).1 ≤ d ∧
      ((∃ v, (retryLoop (k : ℤ) func attempts).2 = Except.ok (some v)) ∨
       (∃ e, (retryLoop (k : ℤ) func attempts).2 = Except.error e)) := by
  intro d
  induction d with
  | zero => intro attempts k _ h1; omega
  | succ n ih =>
    intro attempts k hk _
    rw [retryLoop]
    have hlt : (attempts : ℤ) < (k : ℤ) := by exact_mod_cast (by omega : attempts < k)
    rw [dif_pos hlt]
    cases hfa : func attempts with
    | ok v => exact ⟨le_refl 1, Nat.succ_le_succ (Nat.zero_le n), Or.inl ⟨v, rfl⟩⟩
    | error e =>
      dsimp only
      by_cases hn : n = 0
      · subst hn
        have hEq : ((attempts + 1 : ℕ) : ℤ) = (k : ℤ) := by
          exact_mod_cast (by omega : attempts + 1 = k)
        rw [if_pos hEq]
        exact ⟨le_refl 1, le_refl 1, Or.inr ⟨e, rfl⟩⟩
      · have hNe : ¬ (((attempts + 1 : ℕ) : ℤ) = (k : ℤ)) := by
          intro hc
          have : attempts + 1 = k := by exact_mod_cast hc
          omega
        rw [if_neg hNe]
        obtain ⟨hb1, hb2, hb3⟩ := ih (attempts + 1) k (by omega) (by omega)
        refine ⟨?_, ?_, ?_⟩
        · show 1 ≤ (retryLoop (k : ℤ) func (attempts + 1)).1 + 1
          omega
        · show (retryLoop (k : ℤ) func (attempts + 1)).1 + 1 ≤ n + 1
          omega
        · show (∃ v, (retryLoop (k : ℤ) func (attempts + 1)).2 = Except.ok (some v)) ∨
            (∃ e, (retryLoop (k : ℤ) func (attempts + 1)).2 = Except.error e)
          exact hb3

/-! ## Claim theorems: RetryDecorator -/

/-- Claim C1, counterexample: constructing `RetryDecorator(retries=0)`
does not raise — `__init__` stores the value unchecked and returns
normally, so no ConfigurationError is raised at construction time for a
non-positive retries value. -/
theorem retry_init_zero_cex :
    RetryDecorator.init 0 = Except.ok ⟨0⟩ ∧ (RetryDecorator.init 0).isOk = true :=
  ⟨rfl, rfl⟩

/-- Claim C1, amended: for every retries value `r ≤ 0`, construction
succeeds without raising, and the wrapped call performs zero invocations
of the underlying operation and returns `None` (the `while` loop is never
entered). -/
theorem retry_nonpositive_silent {α : Type} (r : ℤ) (h : r ≤ 0)
    (func : ℕ → Except PyErr α) :
    RetryDecorator.init r = Except.ok ⟨r⟩ ∧
    RetryDecorator.call ⟨r⟩ func = (0, Except.ok none) := by
  refine ⟨rfl, ?_⟩
  unfold RetryDecorator.call
  rw [retryLoop]
  rw [dif_neg (by push_cast; omega)]

/-- Witness for `retry_nonpositive_silent` at `r = -2` and a concrete
operation. -/
theorem retry_nonpositive_silent_witness :
    RetryDecorator.init (-2) = Except.ok ⟨-2⟩ ∧
    RetryDecorator.call ⟨-2⟩ (fun _ => Except.ok (7 : ℕ)) = (0, Except.ok none) :=
  retry_nonpositive_silent (-2) (by decide) (fun _ => Except.ok 7)

/-- Claim C3: for `retries = k ≥ 1` and an operation failing on every
invocation, the wrapper invokes the operation exactly `k` times and
propagates exactly the failure raised by the `k`-th invocation
(0-indexed, invocation `k - 1`). -/
theorem retry_allFail_invokes_k_raises_last {α : Type} (k : ℕ) (hk : 1 ≤ k)
    (es : ℕ → PyErr) :
    RetryDecorator.call ⟨(k : ℤ)⟩
        (fun i => (Except.error (es i) : Except PyErr α))
      = (k, Except.error (es (k - 1))) := by
  unfold RetryDecorator.call
  exact retryLoop_allFail es k 0 k (by omega) hk

/-- Witness for `retry_allFail_invokes_k_raises_last` at `k = 3` and
distinct failures per invocation: 3 invocations, the third invocation's
failure propagates. -/
theorem retry_allFail_witness :
    RetryDecorator.call (α := ℕ) ⟨(3 : ℤ)⟩
        (fun i => Except.error ⟨"ValueError", toString i⟩)
      = (3, Except.error ⟨"ValueError", "2"⟩) := by
  have h := retry_allFail_invokes_k_raises_last (α := ℕ) 3 (by decide)
    (fun i => ⟨"ValueError", toString i⟩)
  simpa using h

/-- Claim C4: for `retries = k ≥ 1` and an operation failing on
invocations before the `j`-th and succeeding on the `j`-th (`1 ≤ j ≤ k`,
0-indexed invocation `j - 1`), the wrapper invokes the operation exactly
`j` times and returns the `j`-th invocation's result; the invocation count
`j` shows attempts `j+1..k` never occur. -/
theorem retry_succeedsAt_j {α : Type} (k j : ℕ) (hj : 1 ≤ j) (hjk : j ≤ k)
    (func : ℕ → Except PyErr α) (v : α)
    (hfail : ∀ i, i + 1 < j → ∃ e, func i = Except.error e)
    (hok : func (j - 1) = Except.ok v) :
    RetryDecorator.call ⟨(k : ℤ)⟩ func = (j, Except.ok (some v)) := by
  unfold RetryDecorator.call
  have h := retryLoop_succeedsAt func v (j - 1) 0 (j - 1) k (by omega) (by omega)
    (fun i _ h2 => hfail i (by omega)) hok
  have hj1 : j - 1 + 1 = j := by omega
  rw [hj1] at h
  exact h

/-- Witness for `retry_succeedsAt_j`: `k = 5`, success on attempt `j = 3`
after two failures — 3 invocations, the success value is returned. -/
theorem retry_succeedsAt_witness :
    RetryDecorator.call (α := ℕ) ⟨(5 : ℤ)⟩
        (fun i => if i < 2 then Except.error ⟨"ValueError", "boom"⟩ else Except.ok 42)
      = (3, Except.ok (some 42)) :=
  retry_succeedsAt_j 5 3 (by decide) (by decide)
    (fun i => if i < 2 then Except.error ⟨"ValueError", "boom"⟩ else Except.ok 42) 42
    (fun i hi => ⟨⟨"ValueError", "boom"⟩, by
      have : i < 2 := by omega
      simp [this]⟩)
    rfl

/-- Claim C5: for `retries = k ≥ 1` and any operation, the wrapper
performs between 1 and `k` invocations, and produces exactly one terminal
outcome — a returned value or a propagated failure (never the implicit
`None` of a skipped loop). -/
theorem retry_invocation_bounds {α : Type} (k : ℕ) (hk : 1 ≤ k)
    (func : ℕ → Except PyErr α) :
    1 ≤ (RetryDecorator.call ⟨(k : ℤ)⟩ func).1 ∧
    (RetryDecorator.call ⟨(k : ℤ)⟩ func).1 ≤ k ∧
    ((∃ v, (RetryDecorator.call ⟨(k : ℤ)⟩ func).2 = Except.ok (some v)) ∨
     (∃ e, (RetryDecorator.call ⟨(k : ℤ)⟩ func).2 = Except.error e)) := by
  unfold RetryDecorator.call
  exact retryLoop_bounds func k 0 k (by omega) hk

/-- Witness for `retry_invocation_bounds` at `k = 2` and an operation that
fails once then succeeds. -/
theorem retry_invocation_bounds_witness :
    1 ≤ (RetryDecorator.call (α := ℕ) ⟨(2 : ℤ)⟩
          (fun i => if i = 0 then Except.error ⟨"ValueError", "x"⟩ else Except.ok 1)).1 ∧
    (RetryDecorator.call (α := ℕ) ⟨(2 : ℤ)⟩
          (fun i => if i = 0 then Except.error ⟨"ValueError", "x"⟩ else Except.ok 1)).1 ≤ 2 ∧
    ((∃ v, (RetryDecorator.call (α := ℕ) ⟨(2 : ℤ)⟩
          (fun i => if i = 0 then Except.error ⟨"ValueError", "x"⟩ else Except.ok 1)).2
            = Except.ok (some v)) ∨
     (∃ e, (RetryDecorator.call (α := ℕ) ⟨(2 : ℤ)⟩
          (fun i => if i = 0 then Except.error ⟨"ValueError", "x"⟩ else Except.ok 1)).2
            = Except.error e)) :=
  retry_invocation_bounds 2 (by decide)
    (fun i => if i = 0 then Except.error ⟨"ValueError", "x"⟩ else Except.ok 1)

/-! ## Claim theorems: log_to_file -/

/-- Claim C2, counterexample: with a sink whose appends fail, a
successful operation's return value does not reach the caller — the
wrapper's `try` block covers the SUCCESS write, so the sink's exception is
caught, logged as if the operation had failed, and re-raised in place of
the result. -/
theorem log_sink_failure_cex :
    (log_to_file "f" (Except.ok (42 : ℕ))
        (fun _ _ => Except.error ⟨"OSError", "disk full"⟩) []).2.2
      ≠ Except.ok 42 :=
  fun hc => Except.noConfusion hc

/-- Claim C2, amended: a sink-append failure after a successful operation
is not surfaced separately — the wrapper catches it, attempts to append a
FAILURE record carrying the sink error's own message, and propagates the
sink error to the caller in place of the operation's return value, leaving
the log unchanged. -/
theorem log_sink_failure_masks_success {α : Type} (name : String) (v : α)
    (log : List (Record α)) (se : PyErr) :
    log_to_file name (Except.ok v) (fun _ _ => Except.error se) log
      = ([Event.invoke, Event.appendAttempt ⟨name, RecOutcome.success v⟩,
          Event.appendAttempt ⟨name, RecOutcome.failure se.str⟩],
         log, Except.error se) := rfl

/-- Claim C6: on a successful operation (with the log file writable), the
wrapper invokes the operation exactly once (a single `invoke` event),
appends exactly one SUCCESS record carrying the returned value, and
returns the value unchanged. -/
theorem log_success_one_record {α : Type} (name : String) (v : α)
    (log : List (Record α)) :
    log_to_file name (Except.ok v) okSink log
      = ([Event.invoke, Event.appendAttempt ⟨name, RecOutcome.success v⟩],
         log ++ [⟨name, RecOutcome.success v⟩], Except.ok v) := rfl

/-- Claim C7: on a failing operation (with the log file writable), the
wrapper appends exactly one FAILURE record carrying `str(e)` and re-raises
the original exception unchanged — same class and same message. -/
theorem log_failure_one_record_reraises {α : Type} (name : String) (e : PyErr)
    (log : List (Record α)) :
    log_to_file name (Except.error e) okSink log
      = ([Event.invoke, Event.appendAttempt ⟨name, RecOutcome.failure e.str⟩],
         log ++ [⟨name, RecOutcome.failure e.str⟩], Except.error e) := rfl

/-- Claim C8: for every operation outcome (with the log file writable),
the wrapper's event trace is exactly one invocation followed by exactly
one append, and that single append lands in the log — the append happens
after the operation completes, never before. -/
theorem log_one_append_after_operation {α : Type} (name : String)
    (op : Except PyErr α) (log : List (Record α)) :
    ∃ r, (log_to_file name op okSink log).1 = [Event.invoke, Event.appendAttempt r] ∧
      (log_to_file name op okSink log).2.1 = log ++ [r] := by
  cases op with
  | ok v => exact ⟨⟨name, RecOutcome.success v⟩, rfl, rfl⟩
  | error e => exact ⟨⟨name, RecOutcome.failure e.str⟩, rfl, rfl⟩

/-! ## Claim theorems: Calculator and DataProcessor -/

/-- Claim C9: `Calculator.divide` raises `ValueError` on `num = 0` and
leaves `self.value` unchanged in that case; for `num ≠ 0` it sets
`self.value` to the old value divided by `num` and returns the new
value. -/
theorem calculator_divide_spec (c : Calculator) (num : ℚ) :
    (num = 0 → Calculator.divide c num
        = (Except.error ⟨"ValueError", "Cannot divide by zero."⟩, c)) ∧
    (num ≠ 0 → Calculator.divide c num
        = (Except.ok (c.value / num), ⟨c.value / num⟩)) := by
  constructor <;> intro h <;> simp [Calculator.divide, h]

/-- Witness for `calculator_divide_spec` at value 6: dividing by 0 raises
and keeps the state, dividing by 2 yields 3. -/
theorem calculator_divide_spec_witness :
    Calculator.divide ⟨6⟩ 0
        = (Except.error ⟨"ValueError", "Cannot divide by zero."⟩, ⟨6⟩) ∧
    Calculator.divide ⟨6⟩ 2 = (Except.ok 3, ⟨3⟩) := by
  constructor
  · exact (calculator_divide_spec ⟨6⟩ 0).1 rfl
  · have h := (calculator_divide_spec ⟨6⟩ 2).2 (by norm_num)
    norm_num at h ⊢
    exact h

/-- Claim C10: the query operations of `DataProcessor` build fresh results
and leave the stored `self.data` unchanged (none of them assigns to it;
`sorted` and the comprehension build new lists). -/
theorem dataProcessor_queries_preserve_data (sqrt : ℚ → ℚ) (p : DataProcessor) :
    (p.filter_out_odd_numbers).2 = p ∧ (p.sort_data).2 = p ∧
    (p.compute_statistics sqrt).2 = p := by
  refine ⟨rfl, rfl, ?_⟩
  unfold DataProcessor.compute_statistics
  split <;> rfl
